import Mathlib

/-!
Verification of the asyncio-cancel-scope library: a shallow embedding of
`src/asyncio_cancel_scope/core.py` (the ContextVar-based implementation,
namespace `AsyncioCancelScope`) and of the attribute-based variant in
`src/asyncio_cancel_scope/__init__.py` (namespace `InitVariant`).

Task groups are identified by natural numbers (reference identity).  The
context variable `_SCOPED_TASK_GROUPS` holds a frozenset of task groups; it
is modelled as a `Finset Nat` threaded explicitly.  Exceptions are modelled
by the inductive type `Exc`; `asyncio` side effects (`create_task`,
registry reset, the target group's own exit) are recorded as an explicit
event list so that ordering claims can be stated.
-/

namespace AsyncioCancelScope

/-- The distinct `RuntimeError` messages raised by the two implementations:
`"No cancel scope for N parent task group(s)"` (core.py line 36),
`"Task group T does not have a cancel scope established."` (core.py line 44,
also the message of `__init__.py` line 61), `"Task group T was already
established with cancel_scope()"` (`__init__.py` line 45) and `"Parent task
group T was not established with cancel_scope()"` (`__init__.py` line 50). -/
inductive RTKind where
  | noParentScope : RTKind
  | notScoped : RTKind
  | alreadyScoped : RTKind
  | parentNotScoped : RTKind
deriving DecidableEq, Repr

/-- Exceptions that appear in the library: the private `_StopTaskGroupError`,
the `RuntimeError`s (the payload is the count of missing parents for
`noParentScope` and the task-group identity otherwise), `ExceptionGroup`
with its list of child exceptions, and an opaque family of other
exceptions (user errors such as the tests' `FakeError`). -/
inductive Exc where
  | stopTaskGroupError : Exc
  | runtimeError (kind : RTKind) (payload : Nat) : Exc
  | exceptionGroup (children : List Exc) : Exc
  | other (tag : Nat) : Exc

/-- Decidable equality for `Exc` (written by hand because `Exc` nests
`List`). -/
def Exc.decEq : (a b : Exc) → Decidable (a = b)
  | .stopTaskGroupError, .stopTaskGroupError => .isTrue rfl
  | .runtimeError k m, .runtimeError k' m' =>
    if h : k = k' ∧ m = m' then .isTrue (by rw [h.1, h.2])
    else .isFalse (fun hc => h (by injection hc with h1 h2; exact ⟨h1, h2⟩))
  | .exceptionGroup xs, .exceptionGroup ys =>
    match go xs ys with
    | .isTrue h => .isTrue (by rw [h])
    | .isFalse h => .isFalse (fun hc => h (by injection hc))
  | .other a, .other b =>
    if h : a = b then .isTrue (by rw [h])
    else .isFalse (fun hc => h (by injection hc))
  | .stopTaskGroupError, .runtimeError _ _ => .isFalse nofun
  | .stopTaskGroupError, .exceptionGroup _ => .isFalse nofun
  | .stopTaskGroupError, .other _ => .isFalse nofun
  | .runtimeError _ _, .stopTaskGroupError => .isFalse nofun
  | .runtimeError _ _, .exceptionGroup _ => .isFalse nofun
  | .runtimeError _ _, .other _ => .isFalse nofun
  | .exceptionGroup _, .stopTaskGroupError => .isFalse nofun
  | .exceptionGroup _, .runtimeError _ _ => .isFalse nofun
  | .exceptionGroup _, .other _ => .isFalse nofun
  | .other _, .stopTaskGroupError => .isFalse nofun
  | .other _, .runtimeError _ _ => .isFalse nofun
  | .other _, .exceptionGroup _ => .isFalse nofun
where go : (xs ys : List Exc) → Decidable (xs = ys)
  | [], [] => .isTrue rfl
  | x :: xs, y :: ys =>
    match Exc.decEq x y, go xs ys with
    | .isTrue h1, .isTrue h2 => .isTrue (by rw [h1, h2])
    | .isFalse h1, _ => .isFalse (fun hc => h1 (by injection hc))
    | _, .isFalse h2 => .isFalse (fun hc => h2 (by injection hc))
  | [], _ :: _ => .isFalse nofun
  | _ :: _, [] => .isFalse nofun

instance : DecidableEq Exc := Exc.decEq

deriving instance DecidableEq for Except

/-- Whether an exception is one of the library's `RuntimeError`s. -/
def Exc.isRuntimeError : Exc → Bool
  | .runtimeError _ _ => true
  | _ => false

/-- Whether an exception is an `ExceptionGroup`. -/
def Exc.isExceptionGroup : Exc → Bool
  | .exceptionGroup _ => true
  | _ => false

/-- The coroutines the library ever passes to `TaskGroup.create_task`:
only `_raise_stop()`. -/
inductive Work where
  | raiseStopCoroutine : Work
deriving DecidableEq, Repr

/-- The behaviour of a spawned unit of work: `_raise_stop` immediately
raises `_StopTaskGroupError` (core.py lines 86-91). -/
def runWork : Work → Except Exc Unit
  | .raiseStopCoroutine => .error .stopTaskGroupError

/-- Observable side effects performed by the scope machinery:
`_SCOPED_TASK_GROUPS.reset(token)`, the call to the target group's
`__aexit__`, and `tg.create_task(work)`. -/
inductive Event where
  | resetRegistry : Event
  | groupExit : Event
  | createTask (tg : Nat) (work : Work) : Event
deriving DecidableEq, Repr

/-- Whether an event is a `create_task` call. -/
def Event.isCreateTask : Event → Bool
  | .createTask _ _ => true
  | _ => false

/-- `_CancelScope` (core.py lines 49-62): holds the target task group and
the tuple of parent task groups captured at construction. -/
structure CancelScope where
  target_task_group : Nat
  parent_task_groups : List Nat
deriving DecidableEq, Repr

/-- Result of `cancel_scope(...)` (construction): the registry value after
the call, the side effects performed, and either the scope handle or the
exception raised. -/
structure ConstructOutput where
  scopedAfter : Finset Nat
  events : List Event
  result : Except Exc CancelScope

/-- `cancel_scope(target, *parents)` (core.py lines 20-38): raises
`RuntimeError` when `set(parents) - _SCOPED_TASK_GROUPS.get()` is nonempty
(the message carries `len(missing)`), otherwise returns
`_CancelScope(target, parents)`.  The function only reads the context
variable and spawns nothing; the returned registry and the empty event
list record that. -/
def cancel_scope (scopedTaskGroups : Finset Nat) (target : Nat)
    (parents : List Nat) : ConstructOutput :=
  let missing := parents.toFinset \ scopedTaskGroups
  if missing = ∅ then
    ⟨scopedTaskGroups, [], .ok ⟨target, parents⟩⟩
  else
    ⟨scopedTaskGroups, [], .error (.runtimeError .noParentScope missing.card)⟩

/-- `cancel_group(task_group)` (core.py lines 41-46): raises `RuntimeError`
when the group is not in `_SCOPED_TASK_GROUPS.get()`, otherwise performs
exactly one `task_group.create_task(_raise_stop())`. -/
def cancel_group (scopedTaskGroups : Finset Nat) (tg : Nat) :
    Except Exc (List Event) :=
  if tg ∉ scopedTaskGroups then .error (.runtimeError .notScoped tg)
  else .ok [.createTask tg .raiseStopCoroutine]

/-- Result of `_CancelScope.__aenter__`: the new registry value, the token
(the registry value before the `set` call, restored later by `reset`), and
the returned task group. -/
structure EnterOutput where
  scopedAfter : Finset Nat
  token : Finset Nat
  result : Nat

/-- `_CancelScope.__aenter__` (core.py lines 64-68): sets the context
variable to its old value united with the target (the token keeps the old
value), enters the target group, and returns the target. -/
def CancelScope.aenter (sc : CancelScope) (scopedTaskGroups : Finset Nat) :
    EnterOutput :=
  ⟨scopedTaskGroups ∪ {sc.target_task_group}, scopedTaskGroups,
    sc.target_task_group⟩

/-- The cascade loop `for parent_tg in self._parent_task_groups:
cancel_group(parent_tg)` (core.py lines 77-78): processes the parents in
order, accumulating the `create_task` events; the first `cancel_group`
failure aborts the loop and its exception propagates. -/
def cascadeParents (scopedTaskGroups : Finset Nat) :
    List Nat → List Event × Option Exc
  | [] => ([], none)
  | p :: rest =>
    match cancel_group scopedTaskGroups p with
    | .error e => ([], some e)
    | .ok evs =>
      let pr := cascadeParents scopedTaskGroups rest
      (evs ++ pr.1, pr.2)

/-- Result of `_CancelScope.__aexit__`: the ordered side effects, the
registry value after the call, and the exception seen by the caller
(`none` when `__aexit__` returns normally). -/
structure ExitOutput where
  events : List Event
  scopedAfter : Finset Nat
  raised : Option Exc
deriving DecidableEq

/-- `_CancelScope.__aexit__` (core.py lines 70-80): first
`_SCOPED_TASK_GROUPS.reset(token)`, then the target group's `__aexit__`
(whose outcome — `none` for a normal return, `some e` for a raised
exception — is a parameter of the embedding).  An `ExceptionGroup` whose
exception list matches `[_StopTaskGroupError()]` is suppressed and the
cascade over the declared parents runs; any other `ExceptionGroup` is
re-raised unchanged; any non-group exception propagates uncaught. -/
def CancelScope.aexit (sc : CancelScope) (token : Finset Nat)
    (outcome : Option Exc) : ExitOutput :=
  let restored := token
  match outcome with
  | none => ⟨[.resetRegistry, .groupExit], restored, none⟩
  | some e =>
    match e with
    | .exceptionGroup [.stopTaskGroupError] =>
      let pr := cascadeParents restored sc.parent_task_groups
      ⟨.resetRegistry :: .groupExit :: pr.1, restored, pr.2⟩
    | _ => ⟨[.resetRegistry, .groupExit], restored, some e⟩

end AsyncioCancelScope

namespace InitVariant

open AsyncioCancelScope

/-- The `_asyncio_cancel_scope_info_` attribute map of the variant in
`__init__.py`: for each task group, `none` when the attribute is absent,
`some parents` when `_set_cancel_scope_info` stored
`{"parent_task_groups": parents}`. -/
def Info : Type := Nat → Option (List Nat)

/-- `_CancelScope` of `__init__.py` (lines 58-80): holds only the task
group. -/
structure CancelScope where
  task_group : Nat
deriving DecidableEq, Repr

/-- `cancel_scope(current, *parents)` of `__init__.py` (lines 19-44):
raises `RuntimeError` when the target already has scope info, then raises
`RuntimeError` at the first parent without scope info, otherwise
constructs the scope, stores the info for the target, and returns the
scope together with the updated info map. -/
def cancel_scope (info : Info) (target : Nat) (parents : List Nat) :
    Except Exc (Info × CancelScope) :=
  if (info target).isSome then
    .error (.runtimeError .alreadyScoped target)
  else
    match parents.find? (fun p => (info p).isNone) with
    | some p => .error (.runtimeError .parentNotScoped p)
    | none =>
      .ok (fun g => if g = target then some parents else info g, ⟨target⟩)

end InitVariant

section Sanity

open AsyncioCancelScope

example : runWork .raiseStopCoroutine = .error .stopTaskGroupError := rfl

example : cancel_group {3} 3 = .ok [.createTask 3 .raiseStopCoroutine] := by decide

example : cancel_group {3} 4 = .error (.runtimeError .notScoped 4) := by decide

example :
    (CancelScope.aexit ⟨0, []⟩ ∅ (some (.exceptionGroup [.stopTaskGroupError]))).raised
      = none := by decide

example :
    (CancelScope.aexit ⟨0, [1]⟩ ∅ (some (.exceptionGroup [.stopTaskGroupError]))).raised
      = some (.runtimeError .notScoped 1) := by decide

example :
    (CancelScope.aexit ⟨0, [1]⟩ {1} (some (.exceptionGroup [.stopTaskGroupError])))
      = ⟨[.resetRegistry, .groupExit, .createTask 1 .raiseStopCoroutine], {1}, none⟩ := by
  decide

example :
    (cancel_scope {0} 0 []).result = .ok ⟨0, []⟩ := by decide

example :
    (cancel_scope ∅ 0 [1]).result
      = .error (.runtimeError .noParentScope 1) := by decide

example :
    InitVariant.cancel_scope (fun _ => none) 0 [1]
      = .error (.runtimeError .parentNotScoped 1) := by
  simp [InitVariant.cancel_scope, List.find?]

example :
    InitVariant.cancel_scope (fun _ => some []) 0 [1]
      = .error (.runtimeError .alreadyScoped 0) := by
  simp [InitVariant.cancel_scope]

end Sanity

namespace AsyncioCancelScope

/-- Helper: the `set(parents).difference(scoped)` test is empty exactly when
every listed parent is registered. -/
theorem toFinset_sdiff_empty_iff (s : Finset Nat) (ps : List Nat) :
    ps.toFinset \ s = ∅ ↔ ∀ p ∈ ps, p ∈ s := by
  rw [Finset.sdiff_eq_empty_iff_subset]
  constructor
  · intro hsub p hp
    exact hsub (List.mem_toFinset.mpr hp)
  · intro h x hx
    exact h x (List.mem_toFinset.mp hx)

/-- Helper: construction succeeds, with no registry change and no events,
whenever every listed parent is registered. -/
theorem cancel_scope_ok (s : Finset Nat) (t : Nat) (ps : List Nat)
    (h : ∀ p ∈ ps, p ∈ s) :
    cancel_scope s t ps = ⟨s, [], .ok ⟨t, ps⟩⟩ := by
  have he : ps.toFinset \ s = ∅ := (toFinset_sdiff_empty_iff s ps).mpr h
  simp [cancel_scope, he]

/-- Helper: the only exception construction can raise is the
missing-parents `RuntimeError` carrying the count of distinct missing
parents. -/
theorem cancel_scope_error_shape (s : Finset Nat) (t : Nat) (ps : List Nat)
    (e : Exc) (he : (cancel_scope s t ps).result = .error e) :
    e = .runtimeError .noParentScope (ps.toFinset \ s).card := by
  by_cases h : ps.toFinset \ s = ∅ <;> simp [cancel_scope, h] at he
  exact he.symm

/-- Helper: construction fails exactly when some listed parent is
unregistered. -/
theorem cancel_scope_error_iff (s : Finset Nat) (t : Nat) (ps : List Nat) :
    (∃ e, (cancel_scope s t ps).result = .error e) ↔ ∃ p ∈ ps, p ∉ s := by
  by_cases h : ps.toFinset \ s = ∅
  · simp only [cancel_scope, h, if_true]
    constructor
    · rintro ⟨e, he⟩
      exact absurd he (by simp)
    · rintro ⟨p, hp, hps⟩
      exact absurd ((toFinset_sdiff_empty_iff s ps).mp h p hp) hps
  · simp only [cancel_scope, h, if_false]
    constructor
    · intro _
      by_contra hall
      push_neg at hall
      exact h ((toFinset_sdiff_empty_iff s ps).mpr hall)
    · intro _
      exact ⟨.runtimeError .noParentScope (ps.toFinset \ s).card, rfl⟩

/-- Helper: the cascade over a parent list whose members are all registered
issues one `create_task(_raise_stop())` per parent, in order, and raises
nothing. -/
theorem cascadeParents_all_mem (s : Finset Nat) (ps : List Nat)
    (h : ∀ p ∈ ps, p ∈ s) :
    cascadeParents s ps
      = (ps.map (fun p => .createTask p .raiseStopCoroutine), none) := by
  induction ps with
  | nil => rfl
  | cons p rest ih =>
    have hp : p ∈ s := h p (by simp)
    have hrest : ∀ q ∈ rest, q ∈ s := fun q hq => h q (by simp [hq])
    simp [cascadeParents, cancel_group, hp, ih hrest]

/-- Helper: the cascade stops at the first unregistered parent: the parents
before it each get their stop task, the unregistered one raises the
not-scoped `RuntimeError`, and the parents after it are not reached. -/
theorem cascadeParents_split (s : Finset Nat) (pre : List Nat) (bad : Nat)
    (rest : List Nat) (hpre : ∀ p ∈ pre, p ∈ s) (hbad : bad ∉ s) :
    cascadeParents s (pre ++ bad :: rest)
      = (pre.map (fun p => .createTask p .raiseStopCoroutine),
         some (.runtimeError .notScoped bad)) := by
  induction pre with
  | nil => simp [cascadeParents, cancel_group, hbad]
  | cons p pr ih =>
    have hp : p ∈ s := hpre p (by simp)
    have h2 : ∀ q ∈ pr, q ∈ s := fun q hq => hpre q (by simp [hq])
    simp [cascadeParents, cancel_group, hp, ih h2]

/-- Helper: whatever the parents, the cascade either raises nothing or
raises a not-scoped `RuntimeError`; in particular it never raises an
`ExceptionGroup`. -/
theorem cascadeParents_raised_shape (s : Finset Nat) (ps : List Nat) :
    (cascadeParents s ps).2 = none
      ∨ ∃ p, (cascadeParents s ps).2 = some (.runtimeError .notScoped p) := by
  induction ps with
  | nil => exact Or.inl rfl
  | cons p rest ih =>
    by_cases hp : p ∈ s
    · simpa [cascadeParents, cancel_group, hp] using ih
    · exact Or.inr ⟨p, by simp [cascadeParents, cancel_group, hp]⟩

/-- Helper: every event emitted by the cascade is a `create_task` call. -/
theorem cascadeParents_events_all (s : Finset Nat) (ps : List Nat) :
    ((cascadeParents s ps).1).all Event.isCreateTask = true := by
  induction ps with
  | nil => rfl
  | cons p rest ih =>
    by_cases hp : p ∈ s
    · simp only [cascadeParents, cancel_group, hp]
      simp only [not_true_eq_false, if_false, List.singleton_append]
      simpa [Event.isCreateTask] using ih
    · simp [cascadeParents, cancel_group, hp]

/-- Helper: on the sole-Stop-Signal group error, `__aexit__` resets the
registry, runs the group exit, then runs the cascade, whose events and
outcome it surfaces. -/
theorem aexit_sole_stop (sc : CancelScope) (token : Finset Nat) :
    sc.aexit token (some (.exceptionGroup [.stopTaskGroupError]))
      = ⟨.resetRegistry :: .groupExit ::
           (cascadeParents token sc.parent_task_groups).1,
         token, (cascadeParents token sc.parent_task_groups).2⟩ := rfl

/-- Helper: on any other outcome of the target group's exit, `__aexit__`
resets the registry, runs the group exit, spawns nothing, and propagates
the outcome unchanged. -/
theorem aexit_not_sole_stop (sc : CancelScope) (token : Finset Nat)
    (outcome : Option Exc)
    (h : outcome ≠ some (.exceptionGroup [.stopTaskGroupError])) :
    sc.aexit token outcome
      = ⟨[.resetRegistry, .groupExit], token, outcome⟩ := by
  rcases outcome with _ | e
  · rfl
  · rcases e with _ | ⟨k, m⟩ | children | tg
    · rfl
    · rfl
    · rcases children with _ | ⟨c, cs⟩
      · rfl
      · rcases c with _ | ⟨k, m⟩ | cs2 | tg
        · rcases cs with _ | ⟨c2, cs3⟩
          · exact absurd rfl h
          · rfl
        · rfl
        · rfl
        · rfl
    · rfl

/-- Helper: `__aexit__` always leaves the registry at the token's snapshot. -/
theorem aexit_scopedAfter (sc : CancelScope) (token : Finset Nat)
    (outcome : Option Exc) :
    (sc.aexit token outcome).scopedAfter = token := by
  by_cases h : outcome = some (.exceptionGroup [.stopTaskGroupError])
  · rw [h, aexit_sole_stop]
  · rw [aexit_not_sole_stop sc token outcome h]

end AsyncioCancelScope

namespace AsyncioCancelScope

/-- Claim C1, counterexample: a scope declared with parent group `1`,
entered while the registry snapshot was empty (its parent's scope had
already exited between construction and entry), whose target's exit raises
a group error holding exactly one Stop Signal.  The claim says the scope
suppresses the error and the caller sees no exception; in fact `__aexit__`
raises the not-scoped `RuntimeError` from the cascade. -/
theorem claim1_counterexample :
    ((CancelScope.aexit ⟨0, [1]⟩ ∅
        (some (.exceptionGroup [.stopTaskGroupError]))).raised
      = some (.runtimeError .notScoped 1))
  ∧ ((CancelScope.aexit ⟨0, [1]⟩ ∅
        (some (.exceptionGroup [.stopTaskGroupError]))).raised ≠ none) := by
  decide

/-- Claim C1, amended: on a group error whose child list is exactly one
Stop Signal, the scope suppresses the group error — it is never re-raised —
and, provided every declared parent is registered at cascade time (in
particular always, when there are no parents), the caller sees no
exception at all; a group error with any other child list propagates
unchanged; a non-group-error exception is never suppressed; a normal group
exit raises nothing. -/
theorem claim1_voluntary_stop_suppression (sc : CancelScope)
    (token : Finset Nat) (children : List Exc) (e : Exc) :
    (children = [.stopTaskGroupError] →
      (∀ p ∈ sc.parent_task_groups, p ∈ token) →
      (sc.aexit token (some (.exceptionGroup children))).raised = none)
  ∧ (children = [.stopTaskGroupError] →
      (sc.aexit token (some (.exceptionGroup children))).raised
        ≠ some (.exceptionGroup children))
  ∧ (children ≠ [.stopTaskGroupError] →
      (sc.aexit token (some (.exceptionGroup children))).raised
        = some (.exceptionGroup children))
  ∧ (e.isExceptionGroup = false →
      (sc.aexit token (some e)).raised = some e)
  ∧ (sc.aexit token none).raised = none := by
  refine ⟨?_, ?_, ?_, ?_, rfl⟩
  · intro hch hall
    subst hch
    rw [aexit_sole_stop]
    simpa using (congrArg Prod.snd (cascadeParents_all_mem token _ hall))
  · intro hch
    subst hch
    rw [aexit_sole_stop]
    rcases cascadeParents_raised_shape token sc.parent_task_groups with h0 | ⟨p, hp⟩
    · simp [h0]
    · simp [hp]
  · intro hch
    have hne : (some (Exc.exceptionGroup children) : Option Exc)
        ≠ some (.exceptionGroup [.stopTaskGroupError]) := by
      simpa using hch
    rw [aexit_not_sole_stop sc token _ hne]
  · intro hg
    have hne : (some e : Option Exc)
        ≠ some (.exceptionGroup [.stopTaskGroupError]) := by
      intro hc
      rw [Option.some_inj.mp hc] at hg
      simp [Exc.isExceptionGroup] at hg
    rw [aexit_not_sole_stop sc token _ hne]

/-- Claim C1, witness: with parent `1` registered at cascade time the
sole-Stop-Signal exit is fully suppressed, and a mixed group error
propagates unchanged. -/
theorem claim1_voluntary_stop_suppression_witness :
    ((CancelScope.aexit ⟨0, [1]⟩ {1}
        (some (.exceptionGroup [.stopTaskGroupError]))).raised = none)
  ∧ ((CancelScope.aexit ⟨0, [1]⟩ {1}
        (some (.exceptionGroup [.stopTaskGroupError, .other 7]))).raised
      = some (.exceptionGroup [.stopTaskGroupError, .other 7])) :=
  ⟨(claim1_voluntary_stop_suppression ⟨0, [1]⟩ {1} [.stopTaskGroupError]
      (.other 0)).1 rfl (by decide),
   (claim1_voluntary_stop_suppression ⟨0, [1]⟩ {1}
      [.stopTaskGroupError, .other 7] (.other 0)).2.2.1 (by decide)⟩

/-- Claim C2, counterexample: a voluntary stop is recognized by a scope
declared with parents `[1, 2]`, but parent `2` is unregistered at cascade
time, so parent `2` never receives a cancellation request, against the
claim that every declared parent receives one. -/
theorem claim2_counterexample :
    ((CancelScope.aexit ⟨0, [1, 2]⟩ {1}
        (some (.exceptionGroup [.stopTaskGroupError]))).events
      = [.resetRegistry, .groupExit, .createTask 1 .raiseStopCoroutine])
  ∧ (Event.createTask 2 .raiseStopCoroutine ∉
      (CancelScope.aexit ⟨0, [1, 2]⟩ {1}
        (some (.exceptionGroup [.stopTaskGroupError]))).events) := by
  decide

/-- Claim C2, amended: when the exit recognizes a voluntary stop and every
declared parent is registered, exactly the declared parents each receive
one cancellation request (a `create_task(_raise_stop())`), in declaration
order; on any other exit outcome no cancellation request is issued to any
group.  (When some declared parent is unregistered, the cascade stops at
the first such parent and raises, as stated by the C10 theorem.) -/
theorem claim2_cascade_exactly_on_stop (sc : CancelScope)
    (token : Finset Nat) (outcome : Option Exc) :
    (outcome = some (.exceptionGroup [.stopTaskGroupError]) →
      (∀ p ∈ sc.parent_task_groups, p ∈ token) →
      (sc.aexit token outcome).events
        = .resetRegistry :: .groupExit ::
            sc.parent_task_groups.map (fun p => .createTask p .raiseStopCoroutine))
  ∧ (outcome ≠ some (.exceptionGroup [.stopTaskGroupError]) →
      (sc.aexit token outcome).events = [.resetRegistry, .groupExit]) := by
  constructor
  · intro ho hall
    subst ho
    rw [aexit_sole_stop]
    simpa using (congrArg Prod.fst (cascadeParents_all_mem token _ hall))
  · intro ho
    rw [aexit_not_sole_stop sc token outcome ho]

/-- Claim C2, witness: with both parents registered, both receive exactly
one stop task on a voluntary stop; on a normal exit no request is
issued. -/
theorem claim2_cascade_exactly_on_stop_witness :
    ((CancelScope.aexit ⟨0, [1, 2]⟩ {1, 2}
        (some (.exceptionGroup [.stopTaskGroupError]))).events
      = [.resetRegistry, .groupExit, .createTask 1 .raiseStopCoroutine,
         .createTask 2 .raiseStopCoroutine])
  ∧ ((CancelScope.aexit ⟨0, [1, 2]⟩ {1, 2} none).events
      = [.resetRegistry, .groupExit]) :=
  ⟨(claim2_cascade_exactly_on_stop ⟨0, [1, 2]⟩ {1, 2}
      (some (.exceptionGroup [.stopTaskGroupError]))).1 rfl (by decide),
   (claim2_cascade_exactly_on_stop ⟨0, [1, 2]⟩ {1, 2} none).2 (by decide)⟩

/-- Claim C3: `cancel_group` raises a `RuntimeError` exactly when the group
is not registered; on a registered group its entire effect is one
`create_task` of the `_raise_stop()` coroutine on that group, and that
coroutine's only behaviour is to raise the Stop Signal. -/
theorem claim3_cancel_group_contract (s : Finset Nat) (g : Nat) :
    ((∃ e, cancel_group s g = .error e ∧ e.isRuntimeError = true) ↔ g ∉ s)
  ∧ (g ∈ s → cancel_group s g = .ok [.createTask g .raiseStopCoroutine])
  ∧ runWork .raiseStopCoroutine = .error .stopTaskGroupError := by
  refine ⟨⟨?_, ?_⟩, ?_, rfl⟩
  · rintro ⟨e, he, _⟩ hg
    simp [cancel_group, hg] at he
  · intro hg
    exact ⟨.runtimeError .notScoped g, by simp [cancel_group, hg], rfl⟩
  · intro hg
    simp [cancel_group, hg]

/-- Claim C3, witness: on registry `{5}`, cancelling `3` raises a
`RuntimeError` and cancelling `5` spawns exactly the one stop task. -/
theorem claim3_cancel_group_contract_witness :
    (∃ e, cancel_group {5} 3 = .error e ∧ e.isRuntimeError = true)
  ∧ cancel_group {5} 5 = .ok [.createTask 5 .raiseStopCoroutine] :=
  ⟨(claim3_cancel_group_contract {5} 3).1.2 (by decide),
   (claim3_cancel_group_contract {5} 5).2.1 (by decide)⟩

/-- Claim C4, counterexample: in core.py, opening a scope over target `0`
while `0` is already registered does not fail — the handle is produced —
against the claim that it fails for every already-registered target. -/
theorem claim4_counterexample :
    (0 : Nat) ∈ ({0} : Finset Nat)
  ∧ (cancel_scope {0} 0 []).result = .ok ⟨0, []⟩ := by
  decide

/-- Claim C4, amended: the ContextVar implementation (core.py) performs no
already-scoped check on the target: construction succeeds whenever every
listed parent is registered, whatever the target's registration; only the
attribute-based variant (`__init__.py`) fails with the already-scoped
`RuntimeError` on a target that is already registered, before the handle
is produced. -/
theorem claim4_target_check_only_in_variant (s : Finset Nat) (t : Nat)
    (ps : List Nat) (info : InitVariant.Info) (t2 : Nat) (ps2 : List Nat) :
    ((∀ p ∈ ps, p ∈ s) → (cancel_scope s t ps).result = .ok ⟨t, ps⟩)
  ∧ ((info t2).isSome = true →
      InitVariant.cancel_scope info t2 ps2
        = .error (.runtimeError .alreadyScoped t2)) := by
  constructor
  · intro h
    rw [cancel_scope_ok s t ps h]
  · intro h
    simp [InitVariant.cancel_scope, h]

/-- Claim C4, witness: target `0` already registered — core construction
still succeeds; in the attribute-based variant a target with scope info
fails. -/
theorem claim4_target_check_only_in_variant_witness :
    (cancel_scope {0, 1} 0 [1]).result = .ok ⟨0, [1]⟩
  ∧ InitVariant.cancel_scope (fun _ => some []) 7 []
      = .error (.runtimeError .alreadyScoped 7) :=
  ⟨(claim4_target_check_only_in_variant {0, 1} 0 [1]
      (fun _ => some []) 7 []).1 (by decide),
   (claim4_target_check_only_in_variant {0, 1} 0 [1]
      (fun _ => some []) 7 []).2 rfl⟩

/-- Claim C5: construction fails exactly when some declared parent is
unregistered, the failure is the missing-parents `RuntimeError`, the
failure is synchronous — construction performs no registry change and
spawns nothing on any path — and with all parents registered (in
particular with zero parents) it returns the handle. -/
theorem claim5_parent_validation (s : Finset Nat) (t : Nat) (ps : List Nat) :
    ((∃ e, (cancel_scope s t ps).result = .error e) ↔ ∃ p ∈ ps, p ∉ s)
  ∧ (∀ e, (cancel_scope s t ps).result = .error e →
      e = .runtimeError .noParentScope (ps.toFinset \ s).card)
  ∧ ((∀ p ∈ ps, p ∈ s) → (cancel_scope s t ps).result = .ok ⟨t, ps⟩)
  ∧ (cancel_scope s t ps).events = []
  ∧ (cancel_scope s t ps).scopedAfter = s := by
  refine ⟨cancel_scope_error_iff s t ps, cancel_scope_error_shape s t ps, ?_, ?_, ?_⟩
  · intro h
    rw [cancel_scope_ok s t ps h]
  · by_cases h : ps.toFinset \ s = ∅ <;> simp [cancel_scope, h]
  · by_cases h : ps.toFinset \ s = ∅ <;> simp [cancel_scope, h]

/-- Claim C5, witness: an unregistered parent fails construction with the
missing-parents `RuntimeError`; with zero parents construction returns the
handle. -/
theorem claim5_parent_validation_witness :
    (∃ p ∈ [4], p ∉ ({3} : Finset Nat))
  ∧ (∃ e, (cancel_scope {3} 0 [4]).result = .error e)
  ∧ (cancel_scope {3} 9 []).result = .ok ⟨9, []⟩ :=
  ⟨⟨4, by decide, by decide⟩,
   (claim5_parent_validation {3} 0 [4]).1.mpr ⟨4, by decide, by decide⟩,
   (claim5_parent_validation {3} 9 []).2.2.1 (by decide)⟩

/-- Claim C6: for a scope entered on a target that was not already
registered, after exit — whatever the outcome — the registry equals its
pre-entry snapshot, so the target is no longer registered; reconstructing
a scope over that target then succeeds whenever its parents are
registered, and construction can only ever fail with the missing-parents
`RuntimeError`, never an already-scoped error. -/
theorem claim6_registry_hygiene (s : Finset Nat) (sc : CancelScope)
    (outcome : Option Exc) (h : sc.target_task_group ∉ s) :
    ((sc.aexit (sc.aenter s).token outcome).scopedAfter = s)
  ∧ (sc.target_task_group ∉ (sc.aexit (sc.aenter s).token outcome).scopedAfter)
  ∧ (∀ ps, (∀ p ∈ ps, p ∈ (sc.aexit (sc.aenter s).token outcome).scopedAfter) →
      (cancel_scope (sc.aexit (sc.aenter s).token outcome).scopedAfter
        sc.target_task_group ps).result = .ok ⟨sc.target_task_group, ps⟩)
  ∧ (∀ s2 t2 ps2 e, (cancel_scope s2 t2 ps2).result = .error e →
      ∃ n, e = .runtimeError .noParentScope n) := by
  have hsa : (sc.aexit (sc.aenter s).token outcome).scopedAfter = s :=
    aexit_scopedAfter sc s outcome
  refine ⟨hsa, ?_, ?_, ?_⟩
  · rw [hsa]
    exact h
  · intro ps hps
    rw [hsa] at hps ⊢
    rw [cancel_scope_ok s sc.target_task_group ps hps]
  · intro s2 t2 ps2 e he
    exact ⟨(ps2.toFinset \ s2).card, cancel_scope_error_shape s2 t2 ps2 e he⟩

/-- Claim C6, witness: a scope over group `0`, entered on an empty
registry and exited after a real failure, leaves `0` unregistered and a
second scope over `0` is constructible. -/
theorem claim6_registry_hygiene_witness :
    ((CancelScope.aexit ⟨0, []⟩ (CancelScope.aenter ⟨0, []⟩ ∅).token
        (some (.exceptionGroup [.other 7]))).scopedAfter = ∅)
  ∧ (0 ∉ (CancelScope.aexit ⟨0, []⟩ (CancelScope.aenter ⟨0, []⟩ ∅).token
        (some (.exceptionGroup [.other 7]))).scopedAfter) :=
  ⟨(claim6_registry_hygiene ∅ ⟨0, []⟩ (some (.exceptionGroup [.other 7]))
      (by decide)).1,
   (claim6_registry_hygiene ∅ ⟨0, []⟩ (some (.exceptionGroup [.other 7]))
      (by decide)).2.1⟩

/-- Claim C7: on every exit path, the first action of `__aexit__` is the
registry reset, the second is the target group's exit, and everything
after them is a `create_task` call — so restoration happens strictly
before the group exit and strictly before any cascaded cancellation
request — and the registry ends at the pre-entry snapshot. -/
theorem claim7_reset_first (sc : CancelScope) (token : Finset Nat)
    (outcome : Option Exc) :
    ((sc.aexit token outcome).events.take 2 = [.resetRegistry, .groupExit])
  ∧ (((sc.aexit token outcome).events.drop 2).all Event.isCreateTask = true)
  ∧ ((sc.aexit token outcome).scopedAfter = token) := by
  by_cases h : outcome = some (.exceptionGroup [.stopTaskGroupError])
  · subst h
    rw [aexit_sole_stop]
    exact ⟨rfl, cascadeParents_events_all token sc.parent_task_groups, rfl⟩
  · rw [aexit_not_sole_stop sc token outcome h]
    exact ⟨rfl, rfl, rfl⟩

/-- Claim C9: construction leaves the registry unchanged and spawns
nothing; entry is where the target is added to the registry (capturing the
pre-entry snapshot as the restoration token). -/
theorem claim9_registration_at_entry (s : Finset Nat) (t : Nat)
    (ps : List Nat) (sc : CancelScope) :
    ((cancel_scope s t ps).scopedAfter = s)
  ∧ ((cancel_scope s t ps).events = [])
  ∧ ((sc.aenter s).scopedAfter = s ∪ {sc.target_task_group})
  ∧ (sc.target_task_group ∈ (sc.aenter s).scopedAfter)
  ∧ ((sc.aenter s).token = s) := by
  refine ⟨?_, ?_, rfl, ?_, rfl⟩
  · by_cases h : ps.toFinset \ s = ∅ <;> simp [cancel_scope, h]
  · by_cases h : ps.toFinset \ s = ∅ <;> simp [cancel_scope, h]
  · exact Finset.mem_union_right _ (Finset.mem_singleton_self _)

/-- Claim C10: when a voluntary stop is recognized and the declared parents
are `pre ++ bad :: rest` with every member of `pre` registered and `bad`
unregistered, the exit issues stop tasks to exactly the parents in `pre`,
raises the not-scoped `RuntimeError` for `bad` (even though the scope
itself stopped cleanly), and abandons the cascade: no parent in `rest`
receives anything. -/
theorem claim10_cascade_abandoned (t : Nat) (pre : List Nat) (bad : Nat)
    (rest : List Nat) (token : Finset Nat)
    (hpre : ∀ p ∈ pre, p ∈ token) (hbad : bad ∉ token) :
    CancelScope.aexit ⟨t, pre ++ bad :: rest⟩ token
        (some (.exceptionGroup [.stopTaskGroupError]))
      = ⟨.resetRegistry :: .groupExit ::
           pre.map (fun p => .createTask p .raiseStopCoroutine),
         token, some (.runtimeError .notScoped bad)⟩ := by
  rw [aexit_sole_stop]
  rw [cascadeParents_split token pre bad rest hpre hbad]

/-- Claim C10, witness: parents `[1, 2, 3]` with only `1` registered:
parent `1` gets its stop task, the exit raises the not-scoped
`RuntimeError` for `2`, and `3` is never reached. -/
theorem claim10_cascade_abandoned_witness :
    CancelScope.aexit ⟨0, [1, 2, 3]⟩ {1}
        (some (.exceptionGroup [.stopTaskGroupError]))
      = ⟨[.resetRegistry, .groupExit, .createTask 1 .raiseStopCoroutine],
         {1}, some (.runtimeError .notScoped 2)⟩ :=
  claim10_cascade_abandoned 0 [1] 2 [3] {1} (by decide) (by decide)

end AsyncioCancelScope
